import Mathlib

/-!
Verification of the music-API job service (`src/main.py`).

The development shallowly embeds the program: the normalizer
(`raw_query.strip().lower()`), the MongoDB `songs` collection with the
exact `update_one`/`$set`/upsert merge semantics used by the code, the
background pipeline `process_song`, and the request handler `music_api`.
External collaborators (Gemini, yt-dlp, Telegram) are an explicit
environment of possibly-failing functions.  `music_api` additionally
returns the list of observable effects (store reads/writes, translator
calls, thread spawns) so that frame properties can be stated.
-/

namespace ApiMusic

/-! ## Normalizer: `raw_query.strip().lower()` (main.py line 130) -/

/-- Models Python `str.isspace` membership used by `str.strip` (ASCII
whitespace: space, tab, newline, carriage return, vertical tab, form feed). -/
def pyIsSpace (c : Char) : Bool :=
  c.toNat = 32 || c.toNat = 9 || c.toNat = 10 || c.toNat = 13 ||
  c.toNat = 11 || c.toNat = 12

/-- Python `str.strip()` from the left. -/
def lstrip (l : List Char) : List Char := l.dropWhile pyIsSpace

/-- Python `str.strip()` from the right. -/
def rstrip (l : List Char) : List Char := (l.reverse.dropWhile pyIsSpace).reverse

/-- Python `str.strip()` (both ends). -/
def pyStrip (l : List Char) : List Char := rstrip (lstrip l)

/-- Python `str.lower()` (ASCII fragment, as `Char.toLower`). -/
def pyLower (l : List Char) : List Char := l.map Char.toLower

/-- `user_query = raw_query.strip().lower()` (main.py line 130). -/
def normalize (s : String) : String := ⟨pyLower (pyStrip s.toList)⟩

/-! ## Job store: the Mongo `songs` collection -/

/-- Job status strings stored in the `status` field. -/
inductive Status where
  | processing
  | ready
  | error
deriving DecidableEq, Repr

/-- One document of the `songs` collection, keyed by `user_query`.
Optional fields model fields a given `$set` did not write. -/
structure Rec where
  final_query : Option String
  file_url    : Option String
  status      : Status
  errorDetail : Option String
deriving DecidableEq, Repr

/-- The `songs` collection: at most one document per `user_query` key. -/
abbrev Store := String → Option Rec

def emptyStore : Store := fun _ => none

/-- `songs.update_one({"user_query": uq}, {"$set": {"status": "processing",
"final_query": fq}}, upsert=True)` — the dispatcher's claim write
(main.py lines 147-151).  `$set` merges into an existing document and
creates one (with the filter key) when absent. -/
def claimWrite (store : Store) (uq fq : String) : Store :=
  fun k =>
    if k = uq then
      some (match store uq with
        | some r => { r with status := .processing, final_query := some fq }
        | none =>
          { final_query := some fq, file_url := none,
            status := .processing, errorDetail := none })
    else store k

/-- The success write of `process_song` (main.py lines 98-109):
`$set {user_query, final_query, file_url, status: "ready"}`, upsert. -/
def markReady (store : Store) (uq fq url : String) : Store :=
  fun k =>
    if k = uq then
      some (match store uq with
        | some r =>
          { r with final_query := some fq, file_url := some url,
                   status := .ready }
        | none =>
          { final_query := some fq, file_url := some url,
            status := .ready, errorDetail := none })
    else store k

/-- The failure write of `process_song` (main.py lines 111-120):
`$set {status: "error", error: str(e)}`, upsert.  Note it does not
touch `file_url`. -/
def markError (store : Store) (uq detail : String) : Store :=
  fun k =>
    if k = uq then
      some (match store uq with
        | some r => { r with status := .error, errorDetail := some detail }
        | none =>
          { final_query := none, file_url := none,
            status := .error, errorDetail := some detail })
    else store k

/-! ## External collaborators -/

/-- The external collaborators, each possibly failing (`none` models a
raised exception).  `fetchOk`/`fetchName` model `download_song`: whether
the `yt-dlp` subprocess succeeds for a final query, and the generated
`tmp/<uuid>.mp3` filename it writes. -/
structure Env where
  gemini     : String → Option String
  fetchOk    : String → Bool
  fetchName  : String → String
  upload     : String → Option String
  getFileUrl : String → Option String

/-! ## Pipeline runner: `process_song` (main.py lines 92-120) -/

/-- `process_song(user_query, final_query)`.  The filesystem is the list
of temporary files currently present in `tmp/`; `download_song` creates
one on success and nothing in the code ever removes it.  Any exception
in download/upload/getFile lands in the `except` branch, which writes
`status = "error"`. -/
def process_song (env : Env) (store : Store) (fs : List String)
    (uq fq : String) : Store × List String :=
  if env.fetchOk fq then
    let path := env.fetchName fq
    let fs' := path :: fs
    match env.upload path with
    | none => (markError store uq "upload failed", fs')
    | some fid =>
      match env.getFileUrl fid with
      | none => (markError store uq "getFile failed", fs')
      | some url => (markReady store uq fq url, fs')
  else (markError store uq "download failed", fs)

/-! ## Request handler: `music_api` (main.py lines 123-159) -/

/-- The JSON bodies `music_api` can return. -/
inductive Response where
  | queryRequired
  | cached (file_url : String)
  | processing
  | errorStatus
deriving DecidableEq, Repr

/-- Normal return versus an exception escaping the handler (HTTP 500). -/
inductive Outcome where
  | ok (r : Response)
  | exn
deriving DecidableEq, Repr

/-- Observable effects of one `music_api` call: store reads and writes,
translator calls, and background-thread starts. -/
inductive Eff where
  | findOne (uq : String)
  | geminiCall (uq : String)
  | updateOne (uq : String)
  | spawn (uq fq : String)
deriving DecidableEq, Repr

/-- The handler body after `songs.find_one` returned `song`
(main.py lines 134-159): the status dispatch, and on fall-through the
Gemini call, the claim write and the thread start.  `song["file_url"]`
on a document without the field raises `KeyError`, modeled as `.exn`. -/
def afterFind (env : Env) (store : Store) (uq : String)
    (song : Option Rec) : Outcome × Store × List Eff :=
  match song with
  | some r =>
    match r.status with
    | .ready =>
      match r.file_url with
      | some u => (.ok (.cached u), store, [])
      | none => (.exn, store, [])
    | .processing => (.ok .processing, store, [])
    | .error => (.ok .errorStatus, store, [])
  | none =>
    match env.gemini uq with
    | none => (.exn, store, [.geminiCall uq])
    | some fq =>
      (.ok .processing, claimWrite store uq fq,
       [.geminiCall uq, .updateOne uq, .spawn uq fq])

/-- `music_api(data)` for `data.get("query") = q` (`none` when the key is
missing).  `if not raw_query` rejects exactly `None` and `""`. -/
def music_api (env : Env) (store : Store) (q : Option String) :
    Outcome × Store × List Eff :=
  match q with
  | none => (.ok .queryRequired, store, [])
  | some raw =>
    if raw = "" then (.ok .queryRequired, store, [])
    else
      let uq := normalize raw
      let r := afterFind env store uq (store uq)
      (r.1, r.2.1, .findOne uq :: r.2.2)

/-! ## Sequential composition: one request, its pipeline, a second request -/

/-- Run the pipelines spawned by a handler call, in order. -/
def runSpawns (env : Env) (store : Store) (fs : List String) :
    List Eff → Store × List String
  | [] => (store, fs)
  | .spawn uq fq :: rest =>
    let r := process_song env store fs uq fq
    runSpawns env r.1 r.2 rest
  | _ :: rest => runSpawns env store fs rest

/-- Outcome of two sequential requests for the same raw query against an
initially empty store, with the first request's pipeline running to
completion in between. -/
structure TwoRuns where
  out1     : Outcome
  effs1    : List Eff
  storeMid : Store
  fsMid    : List String
  out2     : Outcome
  store2   : Store
  effs2    : List Eff

def twoRuns (env : Env) (raw : String) : TwoRuns :=
  let r1 := music_api env emptyStore (some raw)
  let p := runSpawns env r1.2.1 [] r1.2.2
  let r2 := music_api env p.1 (some raw)
  { out1 := r1.1, effs1 := r1.2.2, storeMid := p.1, fsMid := p.2,
    out2 := r2.1, store2 := r2.2.1, effs2 := r2.2.2 }

/-! ## Interleaving model for two concurrent requests

Each request thread performs two atomic steps against the shared store:
the `songs.find_one` read, then the remainder of the handler (status
dispatch / Gemini call + claim write + thread start).  This is exactly
the read-then-write decomposition of `music_api` above (same
`afterFind`); a schedule is a list of thread ids. -/

/-- Program counter of one request thread. -/
inductive Phase where
  | toRead
  | toResolve (song : Option Rec)
  | finished (o : Outcome)

/-- Pipeline starts recorded in an effect list. -/
def spawnsOf (effs : List Eff) : List (String × String) :=
  effs.foldr
    (fun e acc => match e with | .spawn uq fq => (uq, fq) :: acc | _ => acc) []

/-- Advance one thread by one atomic step. -/
def stepPhase (env : Env) (store : Store) (raw : String) :
    Phase → Phase × Store × List (String × String)
  | .toRead =>
    if raw = "" then (.finished (.ok .queryRequired), store, [])
    else (.toResolve (store (normalize raw)), store, [])
  | .toResolve song =>
    let r := afterFind env store (normalize raw) song
    (.finished r.1, r.2.1, spawnsOf r.2.2)
  | .finished o => (.finished o, store, [])

/-- Shared state: the store, two request threads, and every pipeline
start that has happened. -/
structure Sys where
  store   : Store
  raw1    : String
  raw2    : String
  ph1     : Phase
  ph2     : Phase
  spawned : List (String × String)

/-- Scheduler step: advance thread 1 (`true`) or thread 2 (`false`). -/
def stepSys (env : Env) (s : Sys) (i : Bool) : Sys :=
  if i then
    let r := stepPhase env s.store s.raw1 s.ph1
    { s with ph1 := r.1, store := r.2.1, spawned := s.spawned ++ r.2.2 }
  else
    let r := stepPhase env s.store s.raw2 s.ph2
    { s with ph2 := r.1, store := r.2.1, spawned := s.spawned ++ r.2.2 }

/-- Run a schedule. -/
def runSched (env : Env) (s : Sys) (sched : List Bool) : Sys :=
  sched.foldl (stepSys env) s

/-- Two fresh concurrent requests for the same raw query on an empty
store. -/
def initSys (raw : String) : Sys :=
  { store := emptyStore, raw1 := raw, raw2 := raw,
    ph1 := .toRead, ph2 := .toRead, spawned := [] }

/-! ## Concrete test fixtures -/

/-- An all-succeeding collaborator environment. -/
def envOk : Env :=
  { gemini := fun q => some (q ++ "!")
    fetchOk := fun _ => true
    fetchName := fun _ => "tmp/a1b2.mp3"
    upload := fun _ => some "fid0"
    getFileUrl := fun _ => some "https://api.telegram.org/file/x" }

/-- A `ready` document carrying a `file_url`. -/
def recReady : Rec :=
  { final_query := some "f", file_url := some "u1",
    status := .ready, errorDetail := none }

/-- An `error` document. -/
def recError : Rec :=
  { final_query := some "f", file_url := none,
    status := .error, errorDetail := some "boom" }

/-- Store holding `recReady` at key `"k"`. -/
def storeReady : Store := fun q => if q = "k" then some recReady else none

/-- Store holding `recError` at key `"abc"`. -/
def storeError : Store := fun q => if q = "abc" then some recError else none

/-- A `ready` document missing the `file_url` field. -/
def recReadyNoUrl : Rec :=
  { final_query := some "f", file_url := none,
    status := .ready, errorDetail := none }

/-- Store holding `recReadyNoUrl` at key `"k"`. -/
def storeReadyNoUrl : Store := fun q => if q = "k" then some recReadyNoUrl else none

/-- Collaborators whose translator always raises. -/
def envGeminiFail : Env := { envOk with gemini := fun _ => none }

/-- `result_url` is present on every `ready` record of the store
(the direction of the spec's biconditional that the code does maintain). -/
def readyHasUrl (store : Store) : Prop :=
  ∀ k r, store k = some r → r.status = .ready → r.file_url.isSome = true

/-! ## Store-lookup lemmas -/

theorem claimWrite_self (store : Store) (uq fq : String) :
    claimWrite store uq fq uq =
      some (match store uq with
        | some r => { r with status := .processing, final_query := some fq }
        | none =>
          { final_query := some fq, file_url := none,
            status := .processing, errorDetail := none }) := by
  simp [claimWrite]

theorem claimWrite_other (store : Store) (uq fq k : String) (h : k ≠ uq) :
    claimWrite store uq fq k = store k := by
  simp [claimWrite, h]

theorem markReady_self (store : Store) (uq fq url : String) :
    markReady store uq fq url uq =
      some (match store uq with
        | some r =>
          { r with final_query := some fq, file_url := some url,
                   status := .ready }
        | none =>
          { final_query := some fq, file_url := some url,
            status := .ready, errorDetail := none }) := by
  simp [markReady]

theorem markReady_other (store : Store) (uq fq url k : String) (h : k ≠ uq) :
    markReady store uq fq url k = store k := by
  simp [markReady, h]

theorem markError_self (store : Store) (uq detail : String) :
    markError store uq detail uq =
      some (match store uq with
        | some r => { r with status := .error, errorDetail := some detail }
        | none =>
          { final_query := none, file_url := none,
            status := .error, errorDetail := some detail }) := by
  simp [markError]

theorem markError_other (store : Store) (uq detail k : String) (h : k ≠ uq) :
    markError store uq detail k = store k := by
  simp [markError, h]

/-! ## Claim C2 -/

/-- C2 counterexample: `mark_ready` is an unconditional upsert.  Applied
to a key whose record is already `ready` (not `processing`), it is not
ignored: it overwrites the stored `file_url` `"u1"` with `"u2"`. -/
theorem mark_ready_overwrites_ready :
    markReady storeReady "k" "f2" "u2" "k" ≠ some recReady
    ∧ (markReady storeReady "k" "f2" "u2" "k").map Rec.file_url
        = some (some "u2") := by
  decide

/-- C2 (amended): the terminal-state writes of `process_song` are
unconditional `$set` upserts with no status guard: whatever the current
record for the key is, `mark_ready` leaves it `ready` with the new
`file_url`, and `mark_error` leaves it `error` with the new detail. -/
theorem mark_writes_unconditional (store : Store) (uq fq url detail : String) :
    (markReady store uq fq url uq).map Rec.status = some .ready
    ∧ (markReady store uq fq url uq).map Rec.file_url = some (some url)
    ∧ (markError store uq detail uq).map Rec.status = some .error
    ∧ (markError store uq detail uq).map Rec.errorDetail
        = some (some detail) := by
  rw [markReady_self, markError_self]
  cases store uq <;> simp

/-! ## Claim C3 -/

/-- C3 counterexample: a request for a key whose record has
`status == "error"` performs only the `find_one` read — no claim write
and no `process_song` thread — and leaves the record in `error`, instead
of transitioning it back to `processing` with a new attempt. -/
theorem error_state_no_reentry_eval :
    (music_api envOk storeError (some "abc")).2.2 = [.findOne "abc"]
    ∧ ((music_api envOk storeError (some "abc")).2.1 "abc").map Rec.status
        = some .error := by
  decide

/-- C3 (amended): for every key whose record has `status == "error"`, a
subsequent `music_api` call returns `{"status": "error"}`, leaves the
store unchanged, and starts no new attempt (its only effect is the
`find_one` read). -/
theorem error_state_returns_error (env : Env) (store : Store) (raw : String)
    (r : Rec) (hraw : raw ≠ "") (hs : store (normalize raw) = some r)
    (hst : r.status = .error) :
    music_api env store (some raw) =
      (.ok .errorStatus, store, [.findOne (normalize raw)]) := by
  simp [music_api, afterFind, hraw, hs, hst]

theorem error_state_returns_error_witness :
    music_api envOk storeError (some "abc") =
      (.ok .errorStatus, storeError, [.findOne (normalize "abc")]) :=
  error_state_returns_error envOk storeError "abc" recError
    (by decide) (by decide) (by decide)

/-! ## Claim C4 -/

/-- C4 counterexample: `mark_error` does not `$unset` `file_url`.
Applied to the store whose record at `"k"` is `ready` with
`file_url = "u1"` (which satisfies the biconditional), it produces a
record with `status == "error"` that still carries `file_url = "u1"`,
so "`result_url` present iff `status == ready`" is not preserved. -/
theorem mark_error_keeps_file_url :
    (markError storeReady "k" "boom" "k").map (fun r => (r.status, r.file_url))
      = some (Status.error, some "u1") := by
  decide

/-- C4 (amended): every store operation preserves the forward direction
`status == ready → result_url present`; the reverse direction is not
preserved (`mark_error` leaves a stale `file_url` behind, see the
counterexample). -/
theorem ready_implies_url_preserved (store : Store) (h : readyHasUrl store)
    (uq fq url detail : String) :
    readyHasUrl (claimWrite store uq fq)
    ∧ readyHasUrl (markReady store uq fq url)
    ∧ readyHasUrl (markError store uq detail) := by
  refine ⟨?_, ?_, ?_⟩ <;> intro k r hk hst
  · by_cases hq : k = uq
    · subst hq
      rw [claimWrite_self] at hk
      cases hs : store k <;> rw [hs] at hk <;>
        cases hk <;> cases hst
    · rw [claimWrite_other store uq fq k hq] at hk
      exact h k r hk hst
  · by_cases hq : k = uq
    · subst hq
      rw [markReady_self] at hk
      cases hs : store k <;> rw [hs] at hk <;> cases hk <;> rfl
    · rw [markReady_other store uq fq url k hq] at hk
      exact h k r hk hst
  · by_cases hq : k = uq
    · subst hq
      rw [markError_self] at hk
      cases hs : store k <;> rw [hs] at hk <;> cases hk <;> cases hst
    · rw [markError_other store uq detail k hq] at hk
      exact h k r hk hst

theorem ready_implies_url_preserved_witness :
    readyHasUrl (claimWrite emptyStore "k" "f")
    ∧ readyHasUrl (markReady emptyStore "k" "f" "u")
    ∧ readyHasUrl (markError emptyStore "k" "boom") :=
  ready_implies_url_preserved emptyStore (fun _ _ hk => nomatch hk) "k" "f" "u" "boom"

/-! ## Claim C5 -/

/-- C5: if the Gemini call raises while the key is absent (so no claim
has been made), the request fails with an exception (HTTP 500 error
response) and the store is returned exactly as it was: no record is
created or modified, and the only effects are the read and the failed
translator call. -/
theorem translator_failure_leaves_store (env : Env) (store : Store)
    (raw : String) (hraw : raw ≠ "")
    (habs : store (normalize raw) = none)
    (hg : env.gemini (normalize raw) = none) :
    music_api env store (some raw) =
      (.exn, store, [.findOne (normalize raw), .geminiCall (normalize raw)]) := by
  simp [music_api, afterFind, hraw, habs, hg]

theorem translator_failure_leaves_store_witness :
    music_api envGeminiFail emptyStore (some "abc") =
      (.exn, emptyStore,
       [.findOne (normalize "abc"), .geminiCall (normalize "abc")]) :=
  translator_failure_leaves_store envGeminiFail emptyStore "abc"
    (by decide) (by decide) (by decide)

/-! ## Claim C7 -/

/-- C7 counterexample: the whitespace-only query `" "` is truthy in
Python, so `if not raw_query` does not reject it: the handler normalizes
it to the empty key `""`, reads the store, performs the claim write and
starts a pipeline — instead of returning `{"error": "query required"}`
with no store interaction. -/
theorem whitespace_query_not_rejected :
    (music_api envOk emptyStore (some " ")).1 = .ok .processing
    ∧ Eff.findOne "" ∈ (music_api envOk emptyStore (some " ")).2.2
    ∧ Eff.updateOne "" ∈ (music_api envOk emptyStore (some " ")).2.2 := by
  decide

/-- C7 (amended): only a missing or empty-string query is rejected with
`{"error": "query required"}` and no store interaction (no read, no
write); whitespace-only inputs pass the check and are processed under
the empty normalized key. -/
theorem empty_query_no_store_interaction (env : Env) (store : Store) :
    music_api env store none = (.ok .queryRequired, store, [])
    ∧ music_api env store (some "") = (.ok .queryRequired, store, []) := by
  exact ⟨rfl, by simp [music_api]⟩

/-! ## Claim C8 -/

/-- C8 counterexample: a fully successful pipeline run (the record ends
`ready`) leaves the downloaded `tmp/...mp3` artifact on disk: nothing
in `process_song` removes it after the upload. -/
theorem temp_file_left_on_success :
    (process_song envOk emptyStore [] "k" "f").2 = ["tmp/a1b2.mp3"]
    ∧ ((process_song envOk emptyStore [] "k" "f").1 "k").map Rec.status
        = some .ready := by
  decide

/-- C8 (amended): the temporary artifact is never removed: on every
execution of `process_song` in which the download succeeds, the created
file is still present in the final filesystem, whatever the outcome of
the upload and URL steps. -/
theorem temp_file_never_removed (env : Env) (store : Store)
    (fs : List String) (uq fq : String) (h : env.fetchOk fq = true) :
    env.fetchName fq ∈ (process_song env store fs uq fq).2 := by
  unfold process_song
  rw [if_pos h]
  cases hu : env.upload (env.fetchName fq) <;> simp only [hu]
  · exact List.mem_cons_self _ _
  · cases hg : env.getFileUrl _ <;> simp only [hg] <;>
      exact List.mem_cons_self _ _

theorem temp_file_never_removed_witness :
    envOk.fetchName "f" ∈ (process_song envOk emptyStore [] "k" "f").2 :=
  temp_file_never_removed envOk emptyStore [] "k" "f" (by decide)

/-! ## Claim C10 -/

/-- C10: on a `ready` record lacking the `file_url` field the handler
raises `KeyError` (`song["file_url"]` has no fallback): the call ends in
an exception rather than any documented response, having performed only
the read. -/
theorem ready_without_url_crashes (env : Env) (store : Store) (raw : String)
    (r : Rec) (hraw : raw ≠ "") (hs : store (normalize raw) = some r)
    (hst : r.status = .ready) (hu : r.file_url = none) :
    music_api env store (some raw) = (.exn, store, [.findOne (normalize raw)]) := by
  simp [music_api, afterFind, hraw, hs, hst, hu]

theorem ready_without_url_crashes_witness :
    music_api envOk storeReadyNoUrl (some "k") =
      (.exn, storeReadyNoUrl, [.findOne (normalize "k")]) :=
  ready_without_url_crashes envOk storeReadyNoUrl "k" recReadyNoUrl
    (by decide) (by decide) (by decide) (by decide)

/-! ## Claim C1 -/

/-- C1: the dispatcher's claim is *not* atomic — it is the
`find_one` read (main.py line 132) followed by an unconditional
`update_one` upsert (lines 147-151).  Under the interleaving
read₁, read₂, resolve₁, resolve₂ of two concurrent first-time requests
for the same key, both threads observe an absent record and both start
a `process_song` pipeline: two spawns, where the claim requires exactly
one.  Under the serial schedule the same two requests spawn only once. -/
theorem concurrent_duplicate_spawn :
    (runSched envOk (initSys "shape of you") [true, false, true, false]).spawned =
      [("shape of you", "shape of you!"), ("shape of you", "shape of you!")]
    ∧ (runSched envOk (initSys "shape of you") [true, true, false, false]).spawned =
      [("shape of you", "shape of you!")] := by
  decide

/-! ## Claim C6 -/

/-- C6: a `ready` record is served from cache: the handler returns
`{"status": "cached", "file_url": u}` with the stored `result_url`,
leaves the store unchanged and performs only the `find_one` read (no
translator call, no write, no spawn — hence no fetch or upload); and in
two sequential successful runs for the same raw query on an empty
store, the first returns `"processing"` and starts exactly one
pipeline, while the second returns the cached `file_url` produced by
that pipeline with no second pipeline and no store change. -/
theorem cached_hit_and_idempotent (env : Env) (raw fq fid url : String)
    (hraw : raw ≠ "")
    (hg : env.gemini (normalize raw) = some fq)
    (hf : env.fetchOk fq = true)
    (hu : env.upload (env.fetchName fq) = some fid)
    (hurl : env.getFileUrl fid = some url) :
    (∀ (store : Store) (r : Rec) (u : String),
        store (normalize raw) = some r → r.status = .ready →
        r.file_url = some u →
        music_api env store (some raw) =
          (.ok (.cached u), store, [.findOne (normalize raw)]))
    ∧ (twoRuns env raw).out1 = .ok .processing
    ∧ spawnsOf (twoRuns env raw).effs1 = [(normalize raw, fq)]
    ∧ (twoRuns env raw).out2 = .ok (.cached url)
    ∧ (twoRuns env raw).effs2 = [.findOne (normalize raw)]
    ∧ (twoRuns env raw).store2 = (twoRuns env raw).storeMid := by
  have hcache : ∀ (store : Store) (r : Rec) (u : String),
      store (normalize raw) = some r → r.status = .ready →
      r.file_url = some u →
      music_api env store (some raw) =
        (.ok (.cached u), store, [.findOne (normalize raw)]) := by
    intro store r u h1 h2 h3
    simp [music_api, afterFind, hraw, h1, h2, h3]
  have hr1 : music_api env emptyStore (some raw) =
      (.ok .processing, claimWrite emptyStore (normalize raw) fq,
       [.findOne (normalize raw), .geminiCall (normalize raw),
        .updateOne (normalize raw), .spawn (normalize raw) fq]) := by
    simp [music_api, afterFind, hraw, emptyStore, hg]
  have hmid : markReady (claimWrite emptyStore (normalize raw) fq)
        (normalize raw) fq url (normalize raw) =
      some { final_query := some fq, file_url := some url,
             status := .ready, errorDetail := none } := by
    rw [markReady_self, claimWrite_self]
    simp [emptyStore]
  have hp : runSpawns env (claimWrite emptyStore (normalize raw) fq) []
        [.findOne (normalize raw), .geminiCall (normalize raw),
         .updateOne (normalize raw), .spawn (normalize raw) fq] =
      (markReady (claimWrite emptyStore (normalize raw) fq)
         (normalize raw) fq url, [env.fetchName fq]) := by
    simp [runSpawns, process_song, hf, hu, hurl]
  have hr2 : music_api env
        (markReady (claimWrite emptyStore (normalize raw) fq)
          (normalize raw) fq url) (some raw) =
      (.ok (.cached url),
       markReady (claimWrite emptyStore (normalize raw) fq)
         (normalize raw) fq url,
       [.findOne (normalize raw)]) :=
    hcache _ _ url hmid rfl rfl
  refine ⟨hcache, ?_, ?_, ?_, ?_, ?_⟩ <;>
    simp [twoRuns, hr1, hp, hr2, spawnsOf]

theorem cached_hit_and_idempotent_witness :
    (twoRuns envOk "song").out2 =
      .ok (.cached "https://api.telegram.org/file/x") :=
  (cached_hit_and_idempotent envOk "song" ("song" ++ "!") "fid0"
      "https://api.telegram.org/file/x"
      (by decide) (by decide) (by decide) (by decide) (by decide)).2.2.2.1

/-! ## Claim C9: the normalizer -/

theorem char_ofNat_le90 :
    ∀ n, n < 91 → 65 ≤ n → (Char.ofNat (n + 32)).toNat = n + 32 := by
  decide

theorem toLower_toNat_of_upper (c : Char)
    (h : 65 ≤ c.toNat ∧ c.toNat ≤ 90) :
    (Char.toLower c).toNat = c.toNat + 32 := by
  simp only [Char.toLower]
  rw [if_pos ⟨h.1, h.2⟩]
  exact char_ofNat_le90 c.toNat (by omega) h.1

theorem toLower_eq_of_not_upper (c : Char)
    (h : ¬(65 ≤ c.toNat ∧ c.toNat ≤ 90)) :
    Char.toLower c = c := by
  simp only [Char.toLower]
  rw [if_neg]
  intro hc
  exact h ⟨hc.1, hc.2⟩

theorem toLower_toLower (c : Char) :
    Char.toLower (Char.toLower c) = Char.toLower c := by
  by_cases h : 65 ≤ c.toNat ∧ c.toNat ≤ 90
  · have h1 := toLower_toNat_of_upper c h
    apply toLower_eq_of_not_upper
    omega
  · rw [toLower_eq_of_not_upper c h, toLower_eq_of_not_upper c h]

theorem pyIsSpace_false_of_ge (c : Char) (h : 33 ≤ c.toNat) :
    pyIsSpace c = false := by
  simp only [pyIsSpace, Bool.or_eq_false_iff, decide_eq_false_iff_not]
  omega

theorem pyIsSpace_toLower (c : Char) :
    pyIsSpace (Char.toLower c) = pyIsSpace c := by
  by_cases h : 65 ≤ c.toNat ∧ c.toNat ≤ 90
  · have h1 := toLower_toNat_of_upper c h
    rw [pyIsSpace_false_of_ge _ (by omega), pyIsSpace_false_of_ge c (by omega)]
  · rw [toLower_eq_of_not_upper c h]

theorem dropWhile_dropWhile {α : Type} (p : α → Bool) (l : List α) :
    (l.dropWhile p).dropWhile p = l.dropWhile p := by
  have h := List.head?_dropWhile_not p l
  cases hd : l.dropWhile p with
  | nil => rfl
  | cons a t =>
    rw [hd] at h
    simp only [List.head?_cons] at h
    simp [List.dropWhile_cons, h]

theorem rstrip_rstrip (l : List Char) : rstrip (rstrip l) = rstrip l := by
  unfold rstrip
  rw [List.reverse_reverse, dropWhile_dropWhile]

theorem rstrip_prefix (l : List Char) : rstrip l <+: l := by
  have h : l.reverse.dropWhile pyIsSpace <:+ l.reverse :=
    List.dropWhile_suffix pyIsSpace
  rw [← List.reverse_suffix]
  simpa [rstrip] using h

theorem lstrip_rstrip_lstrip (l : List Char) :
    lstrip (rstrip (lstrip l)) = rstrip (lstrip l) := by
  have hpre : rstrip (lstrip l) <+: lstrip l := rstrip_prefix (lstrip l)
  have hh := List.head?_dropWhile_not pyIsSpace l
  cases hd : rstrip (lstrip l) with
  | nil => rfl
  | cons a t =>
    rw [hd] at hpre
    obtain ⟨t', ht⟩ := hpre
    have ha : (l.dropWhile pyIsSpace).head? = some a := by
      have hc : lstrip l = a :: (t ++ t') := by
        rw [← ht]
        simp
      simpa [lstrip] using congrArg List.head? hc
    rw [ha] at hh
    simp only at hh
    simp [lstrip, List.dropWhile_cons, hh]

theorem pyStrip_pyStrip (l : List Char) : pyStrip (pyStrip l) = pyStrip l := by
  unfold pyStrip
  rw [lstrip_rstrip_lstrip, rstrip_rstrip]

theorem lstrip_pyLower (l : List Char) :
    lstrip (pyLower l) = pyLower (lstrip l) := by
  unfold lstrip pyLower
  rw [List.dropWhile_map,
    show (pyIsSpace ∘ Char.toLower) = pyIsSpace from funext pyIsSpace_toLower]

theorem rstrip_pyLower (l : List Char) :
    rstrip (pyLower l) = pyLower (rstrip l) := by
  unfold rstrip pyLower
  simp only [← List.map_reverse, List.dropWhile_map,
    show (pyIsSpace ∘ Char.toLower) = pyIsSpace from funext pyIsSpace_toLower]

theorem pyStrip_pyLower (l : List Char) :
    pyStrip (pyLower l) = pyLower (pyStrip l) := by
  unfold pyStrip
  rw [lstrip_pyLower, rstrip_pyLower]

theorem pyLower_pyLower (l : List Char) : pyLower (pyLower l) = pyLower l := by
  unfold pyLower
  rw [List.map_map,
    show (Char.toLower ∘ Char.toLower) = Char.toLower from funext toLower_toLower]

theorem normalize_normalize (s : String) :
    normalize (normalize s) = normalize s := by
  unfold normalize
  have h : pyLower (pyStrip (pyLower (pyStrip s.toList))) =
      pyLower (pyStrip s.toList) := by
    rw [pyStrip_pyLower, pyLower_pyLower, pyStrip_pyStrip]
  exact congrArg (fun l => (⟨l⟩ : String)) h

/-- C9: the normalizer `raw.strip().lower()` is idempotent, and it
identifies inputs differing only in case and surrounding whitespace:
`normalize " Shape Of You " = normalize "shape of you"`. -/
theorem normalize_idempotent_and_identifies :
    (∀ s : String, normalize (normalize s) = normalize s)
    ∧ normalize " Shape Of You " = normalize "shape of you" :=
  ⟨normalize_normalize, by decide⟩

end ApiMusic
